import Mathlib

/-!
Shallow embedding of the smarttraffic-system backend (src/app.py):
the normalization + aggregation pipeline over in-memory traffic-violation
records, together with the dataset store operations used by the request
handlers.  Python scalar cell values are modelled by `Value` (strings and
numbers, with numbers as exact rationals standing for Python floats);
a cell that pandas reports as NaN/None is modelled by `Option.none`.
Rows and normalized records are insertion-ordered association lists,
mirroring Python dict semantics (first binding wins on lookup, assignment
overwrites in place, new keys append at the end).

The `by_hour` histogram of the report depends on `pd.to_datetime`, an
external free-form date reader; no claim touches it and it feeds no other
report field, so it is omitted from the embedded report.  Likewise the
optional date-range pre-filter of the analytics endpoint happens before
the aggregation loop; the aggregator is embedded as a function of the
(already filtered) record list it actually iterates over.
-/

namespace SmartTraffic

/-- A Python scalar cell value: a string or a number.  Numbers are modelled
as exact rationals (Python ints and floats). -/
inductive Value where
  | str (s : String)
  | num (q : Rat)
deriving Repr, DecidableEq

/-- Python truthiness of a scalar: empty string and zero are falsy. -/
def Value.falsy : Value → Bool
  | .str s => s == ""
  | .num q => q == 0

/-- Python whitespace, as stripped by str.strip(). -/
def isPySpace (c : Char) : Bool :=
  c == ' ' || c == '\t' || c == '\n' || c == '\r' || c == '\x0b' || c == '\x0c'

/-- Python str.strip(): drop leading and trailing whitespace. -/
def pyStrip (s : String) : String :=
  String.mk (((s.toList.dropWhile isPySpace).reverse.dropWhile isPySpace).reverse)

/-- Python str.lower(), characterwise. -/
def pyLower (s : String) : String := String.mk (s.toList.map Char.toLower)

/-- Decimal digits to a natural number. -/
def digitsToNat (cs : List Char) : Nat :=
  cs.foldl (fun n c => n * 10 + (c.toNat - 48)) 0

/-- The decimal core of Python float(str): optional surrounding whitespace,
optional sign, digits with an optional fractional part.  Returns none on
anything else (the coercion raises ValueError, which the callers catch). -/
def parseFloat? (s : String) : Option Rat :=
  let cs := (pyStrip s).toList
  let signAndRest : Bool × List Char :=
    match cs with
    | '-' :: rest => (true, rest)
    | '+' :: rest => (false, rest)
    | _ => (false, cs)
  let neg := signAndRest.1
  let cs1 := signAndRest.2
  let intPart := cs1.takeWhile Char.isDigit
  let rest1 := cs1.dropWhile Char.isDigit
  match rest1 with
  | [] =>
    if intPart.isEmpty then none
    else
      let q : Rat := (digitsToNat intPart : Rat)
      some (if neg then -q else q)
  | '.' :: frac =>
    if frac.all Char.isDigit && !(intPart.isEmpty && frac.isEmpty) then
      let q : Rat := (digitsToNat intPart : Rat) + (digitsToNat frac : Rat) / ((10 : Rat) ^ frac.length)
      some (if neg then -q else q)
    else none
  | _ => none

/-- Python float(x) applied to a scalar value: numbers pass through,
strings go through the decimal parse. -/
def Value.toFloat? : Value → Option Rat
  | .num q => some q
  | .str s => parseFloat? s

/-- Python str(x) on a scalar value.  The rendering of numbers is modelled
abstractly by their rational representation; no theorem below depends on
the exact digits Python would print. -/
def Value.pyStr : Value → String
  | .str s => s
  | .num q => toString q

/-- One raw row, as pandas hands it to the loader: an insertion-ordered
mapping from column name to cell, where a `none` cell is a NaN/None entry. -/
abbrev RawRow := List (String × Option Value)

/-- A normalized record has the same shape as a raw row (a Python dict). -/
abbrev Record := List (String × Option Value)

/-- Dict membership and lookup combined: `none` = key absent,
`some none` = key present with a NaN/None value, `some (some v)` = key
present with scalar `v`.  First binding wins, matching dict semantics. -/
def rowGet? (row : List (String × Option Value)) (k : String) : Option (Option Value) :=
  match row with
  | [] => none
  | (k', w) :: rest => if k' = k then some w else rowGet? rest k

/-- Python d.get(k): None when the key is absent, the stored value (which
may itself be None) otherwise. -/
def pyGet (v : Record) (k : String) : Option Value :=
  match rowGet? v k with
  | some w => w
  | none => none

/-- Dict assignment d[k] = v: overwrite in place if the key exists,
append at the end otherwise. -/
def dictSet (m : List (String × Option Value)) (k : String) (v : Option Value) :
    List (String × Option Value) :=
  match m with
  | [] => [(k, v)]
  | (k', w) :: rest => if k' = k then (k', v) :: rest else (k', w) :: dictSet rest k v

/-- src/app.py pick_field: return the value of the first candidate key that
is present in the row with a non-NaN value; None when no candidate matches.
A key that is absent and a key that is present with NaN are skipped alike. -/
def pick_field (row : RawRow) : List String → Option Value
  | [] => none
  | k :: ks =>
    match rowGet? row k with
    | some (some v) => some v
    | _ => pick_field row ks

def vehicleSyns : List String :=
  ["vehicle", "Vehicle", "Vehicle No", "vehicle_no", "plate", "Plate",
   "RegistrationNo", "Registration No"]

def typeSyns : List String :=
  ["type", "Type", "Violation Type", "violation", "Violation", "ViolationType"]

def locationSyns : List String :=
  ["location", "Location", "location_name", "Location Name", "place", "Place"]

def dateSyns : List String :=
  ["date", "Date", "date_of_violation", "Date of Violation", "violation_date",
   "Violation Date"]

def latSyns : List String := ["latitude", "Latitude", "lat", "Lat"]

def lonSyns : List String := ["longitude", "Longitude", "lon", "Lon", "long", "Long"]

/-- The keys skipped by the pass-through loop of the loader (src/app.py
lines 65-69).  Note the source omits the date synonyms from this list. -/
def skipKeys : List String :=
  vehicleSyns ++ typeSyns ++ locationSyns ++ latSyns ++ lonSyns

/-- str(x).strip() if x is not None else the empty string. -/
def strField (x : Option Value) : String :=
  match x with
  | some v => pyStrip v.pyStr
  | none => ""

/-- One step of the pass-through loop: skip NaN cells and cells whose key
is consumed by the canonical mapping, copy everything else verbatim. -/
def extrasStep (m : Record) (kv : String × Option Value) : Record :=
  match kv.2 with
  | none => m
  | some val => if kv.1 ∈ skipKeys then m else dictSet m kv.1 (some val)

/-- The record-building body of load_dataset: resolve the six canonical
fields through pick_field, stringify-and-trim the four string fields with
the empty string as default, keep the raw latitude/longitude values, then
copy the remaining non-NaN columns through. -/
def normalize (r : RawRow) : Record :=
  let vehicle := pick_field r vehicleSyns
  let vtype := pick_field r typeSyns
  let location := pick_field r locationSyns
  let date := pick_field r dateSyns
  let lat := pick_field r latSyns
  let lon := pick_field r lonSyns
  let base : Record :=
    [("vehicle", some (.str (strField vehicle))),
     ("type", some (.str (strField vtype))),
     ("location", some (.str (strField location))),
     ("date", some (.str (strField date))),
     ("latitude", lat),
     ("longitude", lon)]
  r.foldl extrasStep base

/-- df.columns = [str(c).strip() for c in df.columns]. -/
def stripKeys (r : RawRow) : RawRow := r.map (fun kv => (pyStrip kv.1, kv.2))

/-- The external tabular sources, abstracted: a path maps to `none` when no
file exists there, to `some none` when a file exists but parsing it raises,
and to `some (some rows)` when it parses to a row list. -/
abbrev FS := String → Option (Option (List RawRow))

/-- src/app.py load_dataset: existence check first (failure leaves the
store untouched), then the optional clear, then parse (a parse failure
after a clear leaves the store cleared), then normalize and extend. -/
def load_dataset (fs : FS) (path : String) (clear_existing : Bool)
    (violations : List Record) : Bool × List Record :=
  match fs path with
  | none => (false, violations)
  | some parsed =>
    let v1 := if clear_existing then [] else violations
    match parsed with
    | none => (false, v1)
    | some rows => (true, v1 ++ rows.map (fun r => normalize (stripKeys r)))

/-- The reload-if-empty preamble shared by the two read handlers:
when the store is empty, try dataset.xlsx in replace mode, and on failure
dataset.csv in replace mode, threading the store through both attempts. -/
def ensureData (fs : FS) (violations : List Record) : List Record :=
  if violations.isEmpty then
    match load_dataset fs "dataset.xlsx" true violations with
    | (true, v1) => v1
    | (false, v1) => (load_dataset fs "dataset.csv" true v1).2
  else violations

/-- The /violations handler: reload-if-empty, then answer with the store.
Result: (response snapshot, store state after the request). -/
def get_violations (fs : FS) (violations : List Record) :
    List Record × List Record :=
  let v := ensureData fs violations
  (v, v)

/-- The /clear-dataset handler effect on the store: empty it. -/
def clear_dataset (violations : List Record) : List Record := []

/-! ## The analytics aggregator -/

/-- A Python or-chain x1 or x2 or ... or d over optionally-present values:
the first truthy operand, else the final default. -/
def firstTruthy (xs : List (Option Value)) (d : Value) : Value :=
  match xs with
  | [] => d
  | x :: rest =>
    match x with
    | some v => if v.falsy then firstTruthy rest d else v
    | none => firstTruthy rest d

/-- str(x).strip() or the Unknown label. -/
def defaultUnknown (s : String) : String := if s = "" then "Unknown" else s

/-- The type bucket label of one record (src/app.py lines 157-158). -/
def typeLabel (v : Record) : String :=
  defaultUnknown
    (pyStrip (firstTruthy [pyGet v "type", pyGet v "Type", pyGet v "Violation Type"]
      (.str "Unknown")).pyStr)

/-- The location bucket label of one record (src/app.py lines 162-163). -/
def locLabel (v : Record) : String :=
  defaultUnknown (pyStrip (firstTruthy [pyGet v "location"] (.str "Unknown")).pyStr)

/-- The date bucket label of one record (src/app.py lines 177-178). -/
def dateLabel (v : Record) : String :=
  defaultUnknown (pyStrip (firstTruthy [pyGet v "date"] (.str "Unknown")).pyStr)

/-- d[k] = d.get(k, 0) + 1 on an insertion-ordered counter dict. -/
def bump (m : List (String × Nat)) (k : String) : List (String × Nat) :=
  match m with
  | [] => [(k, 1)]
  | (k', n) :: rest => if k' = k then (k', n + 1) :: rest else (k', n) :: bump rest k

/-- Lookup in the captured-coordinates dict. -/
def lookupCoord (m : List (String × (Rat × Rat))) (k : String) : Option (Rat × Rat) :=
  match m with
  | [] => none
  | (k', c) :: rest => if k' = k then some c else lookupCoord rest k

/-- The coordinate candidate of one record: both latitude and longitude
present (non-None) and both coercing to numbers, else nothing (src/app.py
lines 168-174; the failed coercion is swallowed). -/
def tryCoords (v : Record) : Option (Rat × Rat) :=
  match pyGet v "latitude", pyGet v "longitude" with
  | some lat, some lon =>
    match lat.toFloat?, lon.toFloat? with
    | some a, some b => some (a, b)
    | _, _ => none
  | _, _ => none

/-- The by_location update of one record: guarded by the (always true)
truthiness test on the label. -/
def locUpdate (m : List (String × Nat)) (v : Record) : List (String × Nat) :=
  if locLabel v ≠ "" then bump m (locLabel v) else m

/-- The location_coords update of one record: only attempted while the
label has no captured pair yet; an entry, once present, is never replaced. -/
def coordUpdate (m : List (String × (Rat × Rat))) (v : Record) :
    List (String × (Rat × Rat)) :=
  if locLabel v ≠ "" then
    match lookupCoord m (locLabel v) with
    | some _ => m
    | none =>
      match tryCoords v with
      | some c => m ++ [(locLabel v, c)]
      | none => m
  else m

/-- The six running safety counters (src/app.py lines 150-153). -/
structure SafetyStats where
  accidents_2017 : Rat
  killed_2017 : Rat
  injured_2017 : Rat
  accidents_2018 : Rat
  killed_2018 : Rat
  injured_2018 : Rat
deriving Repr, DecidableEq

def initSafety : SafetyStats := ⟨0, 0, 0, 0, 0, 0⟩

/-- The six safety column names, in the order the source reads them. -/
def safetyKeys : List String :=
  ["Number of Accidents - 2017", "Persons Killed - 2017", "Persons Injured - 2017",
   "Number of Accidents - 2018", "Persons Killed - 2018", "Persons Injured - 2018"]

/-- float(v.get(k, 0) or 0): an absent key and a falsy value (None, 0, the
empty string) both become 0; otherwise the scalar is coerced, and `none`
here is the ValueError/TypeError the source catches. -/
def safetyVal? (v : Record) (k : String) : Option Rat :=
  let fetched : Option Value :=
    match rowGet? v k with
    | none => some (.num 0)
    | some w => w
  match fetched with
  | none => some 0
  | some val => if val.falsy then some 0 else val.toFloat?

/-- The safety-stats update of one record.  The six increments share a
single try block in the source, so the first failing coercion aborts the
remaining increments for that record while keeping the earlier ones. -/
def updateSafety (s : SafetyStats) (v : Record) : SafetyStats :=
  match safetyVal? v "Number of Accidents - 2017" with
  | none => s
  | some a17 =>
    let s1 := { s with accidents_2017 := s.accidents_2017 + a17 }
    match safetyVal? v "Persons Killed - 2017" with
    | none => s1
    | some k17 =>
      let s2 := { s1 with killed_2017 := s1.killed_2017 + k17 }
      match safetyVal? v "Persons Injured - 2017" with
      | none => s2
      | some i17 =>
        let s3 := { s2 with injured_2017 := s2.injured_2017 + i17 }
        match safetyVal? v "Number of Accidents - 2018" with
        | none => s3
        | some a18 =>
          let s4 := { s3 with accidents_2018 := s3.accidents_2018 + a18 }
          match safetyVal? v "Persons Killed - 2018" with
          | none => s4
          | some k18 =>
            let s5 := { s4 with killed_2018 := s4.killed_2018 + k18 }
            match safetyVal? v "Persons Injured - 2018" with
            | none => s5
            | some i18 => { s5 with injured_2018 := s5.injured_2018 + i18 }

/-- The mutable state of the aggregation loop.  The four counter dicts and
the coordinate dict are updated componentwise and independently by each
record, exactly as the sequential statements of the loop body do. -/
structure AggState where
  by_type : List (String × Nat)
  by_location : List (String × Nat)
  location_coords : List (String × (Rat × Rat))
  by_date : List (String × Nat)
  safety : SafetyStats
deriving Repr, DecidableEq

def initState : AggState := ⟨[], [], [], [], initSafety⟩

/-- One iteration of the aggregation loop (src/app.py lines 155-199,
without the independent by_hour histogram). -/
def stepRecord (st : AggState) (v : Record) : AggState :=
  { by_type := bump st.by_type (typeLabel v)
    by_location := locUpdate st.by_location v
    location_coords := coordUpdate st.location_coords v
    by_date := bump st.by_date (dateLabel v)
    safety := updateSafety st.safety v }

/-- The loop state after aggregating a record list. -/
def analyticsState (data : List Record) : AggState :=
  data.foldl stepRecord initState

/-- needle in hay on character lists. -/
def substrB (hay needle : List Char) : Bool :=
  match hay with
  | [] => needle.isEmpty
  | c :: t => needle.isPrefixOf (c :: t) || substrB t needle

/-- Python substring test needle in hay. -/
def strIn (needle hay : String) : Bool := substrB hay.toList needle.toList

/-- sum(cnt for k, cnt in m.items() if needle in k.lower()). -/
def sumMatching (m : List (String × Nat)) (needle : String) : Nat :=
  ((m.filter fun p => strIn needle (pyLower p.1)).map Prod.snd).sum

/-- Insert one (location, count) pair into a descending-count list, before
the first entry whose count does not exceed it; stable sorts place earlier
entries first among equal counts. -/
def insertDesc (p : String × Nat) : List (String × Nat) → List (String × Nat)
  | [] => [p]
  | q :: rest => if q.2 ≤ p.2 then p :: q :: rest else q :: insertDesc p rest

/-- sorted(m.items(), key=count, reverse=True): the stable descending sort
of the by_location entries. -/
def sortDesc (l : List (String × Nat)) : List (String × Nat) :=
  l.foldr insertDesc []

/-- One high-risk-zone entry: the coordinates key is present exactly when
the location has a captured pair. -/
structure Zone where
  location : String
  count : Nat
  coordinates : Option (Rat × Rat)
deriving Repr, DecidableEq

/-- The top-5 loop over sorted_locations (src/app.py lines 204-211). -/
def mkZones (m : List (String × Nat)) (coords : List (String × (Rat × Rat))) :
    List Zone :=
  ((sortDesc m).take 5).map fun p => ⟨p.1, p.2, lookupCoord coords p.1⟩

/-- src/app.py calc_pct: percent change, 0.0 when the base is zero. -/
def calc_pct (new old : Rat) : Rat :=
  if old ≠ 0 then (new - old) / old * 100 else 0

def speedMsg : String :=
  "High rate of speeding violations detected. Recommend installing automated speed enforcement cameras."

def signalMsg : String :=
  "Frequent signal violations observed. Suggest improving signal visibility or adding red-light cameras."

/-- The ASCII single-quote character used by the priority template. -/
def quoteCh : String := (Char.ofNat 39).toString

/-- The priority-action template naming the top high-risk zone. -/
def priorityMsg (loc : String) : String :=
  "Priority Action: Increase patrol presence at high-risk zone " ++
    quoteCh ++ loc ++ quoteCh ++ "."

/-- src/app.py lines 221-231.  The two threshold advisories are guarded by
total > 0; the priority advisory is guarded only by a non-empty zone list.
The Python float literal 0.15 is modelled by the exact rational 15/100. -/
def mkRecommendations (total over_speed signal_jump : Nat) (zones : List Zone) :
    List String :=
  let recs : List String := []
  let recs :=
    if 0 < total then
      let recs :=
        if (15 : Rat) / 100 < (over_speed : Rat) / (total : Rat)
        then recs ++ [speedMsg] else recs
      if (15 : Rat) / 100 < (signal_jump : Rat) / (total : Rat)
      then recs ++ [signalMsg] else recs
    else recs
  match zones with
  | [] => recs
  | z :: _ => recs ++ [priorityMsg z.location]

/-- The safety_stats object of the response: the six counters plus the
three derived percent-change fields. -/
structure SafetyReport where
  stats : SafetyStats
  pct_accidents : Rat
  pct_killed : Rat
  pct_injured : Rat
deriving Repr, DecidableEq

/-- The analytics response (src/app.py lines 233-244), without the
independent by_hour histogram. -/
structure Report where
  total_violations : Nat
  by_type : List (String × Nat)
  by_location : List (String × Nat)
  by_date : List (String × Nat)
  high_risk_zones : List Zone
  over_speed : Nat
  signal_jump : Nat
  recommendations : List String
  safety_stats : SafetyReport
deriving Repr, DecidableEq

/-- The aggregation pipeline of the /analytics handler over the record
list it iterates (after the optional date-range pre-filter). -/
def analytics (data : List Record) : Report :=
  let st := analyticsState data
  let total := data.length
  let over_speed := sumMatching st.by_type "speed"
  let signal_jump := sumMatching st.by_type "signal"
  let zones := mkZones st.by_location st.location_coords
  { total_violations := total
    by_type := st.by_type
    by_location := st.by_location
    by_date := st.by_date
    high_risk_zones := zones
    over_speed := over_speed
    signal_jump := signal_jump
    recommendations := mkRecommendations total over_speed signal_jump zones
    safety_stats :=
      { stats := st.safety
        pct_accidents := calc_pct st.safety.accidents_2018 st.safety.accidents_2017
        pct_killed := calc_pct st.safety.killed_2018 st.safety.killed_2017
        pct_injured := calc_pct st.safety.injured_2018 st.safety.injured_2017 } }

/-- The /analytics handler with its reload-if-empty preamble (no date
filter supplied).  Result: (response, store state after the request). -/
def analytics_handler (fs : FS) (violations : List Record) :
    Report × List Record :=
  let v := ensureData fs violations
  (analytics v, v)

/-! ## Auxiliary definitions used only to state claims -/

/-- Total count held by a counter dict. -/
def sumCounts (m : List (String × Nat)) : Nat := (m.map Prod.snd).sum

/-- The i-th safety column name, in source reading order. -/
def safetyKeyAt : Nat → String
  | 0 => "Number of Accidents - 2017"
  | 1 => "Persons Killed - 2017"
  | 2 => "Persons Injured - 2017"
  | 3 => "Number of Accidents - 2018"
  | 4 => "Persons Killed - 2018"
  | 5 => "Persons Injured - 2018"
  | _ => ""

/-- What one record actually contributes to the i-th safety counter:
its coerced value when every safety field up to and including the i-th
coerces for this record, and zero otherwise (the shared try block aborts
the rest of the record at the first failing coercion). -/
def seqContrib (v : Record) (i : Nat) : Rat :=
  if (List.range (i + 1)).all (fun j => (safetyVal? v (safetyKeyAt j)).isSome)
  then (safetyVal? v (safetyKeyAt i)).getD 0
  else 0

/-- The per-field independent sum asserted by the claim, stated from the
claim words: each safety field of each record coerced on its own, a
missing or non-numeric field contributing zero to its own counter only. -/
def claimedFieldSum (data : List Record) (k : String) : Rat :=
  (data.map (fun v => (safetyVal? v k).getD 0)).sum

/-- A source environment with no files at all. -/
def emptyFS : FS := fun _ => none

/-- A source environment holding one default dataset.xlsx with one row. -/
def fsDefault : FS := fun p =>
  if p = "dataset.xlsx" then some (some [[("location", some (.str "Z"))]]) else none

/-- A record whose second safety field is non-numeric while a later safety
field is numeric. -/
def c6Row : Record :=
  [("Persons Killed - 2017", some (.str "abc")),
   ("Number of Accidents - 2018", some (.num 5))]

/-- A first-occurrence record of location X carrying no coordinates. -/
def c7RowA : Record := [("location", some (.str "X"))]

/-- A later record of location X carrying numeric coordinates. -/
def c7RowB : Record :=
  [("location", some (.str "X")), ("latitude", some (.num 1)),
   ("longitude", some (.num 2))]

/-! ## Supporting lemmas -/

theorem sumCounts_bump (m : List (String × Nat)) (k : String) :
    sumCounts (bump m k) = sumCounts m + 1 := by
  induction m with
  | nil => simp [bump, sumCounts]
  | cons p rest ih =>
    obtain ⟨k', n⟩ := p
    by_cases h : k' = k <;> simp [bump, h, sumCounts] at ih ⊢ <;> omega

theorem defaultUnknown_ne (s : String) : defaultUnknown s ≠ "" := by
  unfold defaultUnknown
  split
  · intro h; exact absurd h (by decide)
  · assumption

theorem locLabel_ne (v : Record) : locLabel v ≠ "" := defaultUnknown_ne _

theorem locUpdate_eq (m : List (String × Nat)) (v : Record) :
    locUpdate m v = bump m (locLabel v) := by
  unfold locUpdate
  exact if_pos (locLabel_ne v)

theorem fold_sums (data : List Record) : ∀ st : AggState,
    sumCounts (List.foldl stepRecord st data).by_type = sumCounts st.by_type + data.length ∧
    sumCounts (List.foldl stepRecord st data).by_location = sumCounts st.by_location + data.length ∧
    sumCounts (List.foldl stepRecord st data).by_date = sumCounts st.by_date + data.length := by
  induction data with
  | nil => intro st; simp
  | cons v rest ih =>
    intro st
    have h := ih (stepRecord st v)
    have ht : (stepRecord st v).by_type = bump st.by_type (typeLabel v) := rfl
    have hl : (stepRecord st v).by_location = bump st.by_location (locLabel v) := by
      show locUpdate st.by_location v = _
      exact locUpdate_eq _ _
    have hd : (stepRecord st v).by_date = bump st.by_date (dateLabel v) := rfl
    rw [List.foldl_cons] at *
    refine ⟨?_, ?_, ?_⟩
    · rw [h.1, ht, sumCounts_bump]; simp; omega
    · rw [h.2.1, hl, sumCounts_bump]; simp; omega
    · rw [h.2.2, hd, sumCounts_bump]; simp; omega

theorem pick_field_cons_found {r : RawRow} {k : String} {v : Value}
    (h : rowGet? r k = some (some v)) (ks : List String) :
    pick_field r (k :: ks) = some v := by
  simp [pick_field, h]

theorem pick_field_cons_skip {r : RawRow} {k : String}
    (h : rowGet? r k = none ∨ rowGet? r k = some none) (ks : List String) :
    pick_field r (k :: ks) = pick_field r ks := by
  rcases h with h | h <;> simp [pick_field, h]

theorem pick_field_append_found {r : RawRow} {k : String} {v : Value}
    (pre post : List String)
    (hpre : ∀ k' ∈ pre, rowGet? r k' = none ∨ rowGet? r k' = some none)
    (hk : rowGet? r k = some (some v)) :
    pick_field r (pre ++ k :: post) = some v := by
  induction pre with
  | nil => exact pick_field_cons_found hk post
  | cons a rest ih =>
    rw [List.cons_append, pick_field_cons_skip (hpre a (by simp))]
    exact ih (fun k' hk' => hpre k' (by simp [hk']))

theorem pick_field_all_skip {r : RawRow} (variants : List String)
    (h : ∀ k ∈ variants, rowGet? r k = none ∨ rowGet? r k = some none) :
    pick_field r variants = none := by
  induction variants with
  | nil => rfl
  | cons a rest ih =>
    rw [pick_field_cons_skip (h a (by simp))]
    exact ih (fun k' hk' => h k' (by simp [hk']))

theorem rowGet?_mem_nodup {r : List (String × Option Value)}
    (hnd : (r.map Prod.fst).Nodup) {kv : String × Option Value} (hm : kv ∈ r) :
    rowGet? r kv.1 = some kv.2 := by
  induction r with
  | nil => cases hm
  | cons p rest ih =>
    rcases List.mem_cons.mp hm with h | h
    · subst h; simp [rowGet?]
    · have hne : p.1 ≠ kv.1 := by
        intro he
        have : kv.1 ∈ rest.map Prod.fst := List.mem_map_of_mem Prod.fst h
        rw [List.map_cons, List.nodup_cons] at hnd
        exact hnd.1 (he ▸ this)
      simp only [rowGet?, if_neg hne]
      exact ih (by rw [List.map_cons, List.nodup_cons] at hnd; exact hnd.2) h

theorem rowGet?_dictSet_ne {m : List (String × Option Value)} {k k0 : String}
    (v : Option Value) (h : k ≠ k0) :
    rowGet? (dictSet m k v) k0 = rowGet? m k0 := by
  induction m with
  | nil => simp [dictSet, rowGet?, h]
  | cons p rest ih =>
    obtain ⟨k', w⟩ := p
    by_cases hk : k' = k
    · subst hk; simp [dictSet, rowGet?, h]
    · by_cases h0 : k' = k0 <;>
        simp [dictSet, rowGet?, hk, h0, ih, Ne.symm h]

theorem fold_extras_preserve (l : List (String × Option Value)) (m : Record)
    (k0 : String)
    (h : ∀ kv ∈ l, kv.2 ≠ none → kv.1 ∉ skipKeys → kv.1 ≠ k0) :
    rowGet? (l.foldl extrasStep m) k0 = rowGet? m k0 := by
  induction l generalizing m with
  | nil => rfl
  | cons kv rest ih =>
    rw [List.foldl_cons, ih _ (fun kv' hkv' => h kv' (by simp [hkv']))]
    obtain ⟨k, w⟩ := kv
    cases w with
    | none => rfl
    | some val =>
      by_cases hs : k ∈ skipKeys
      · simp [extrasStep, hs]
      · have hne : k ≠ k0 := h (k, some val) (by simp) (by simp) hs
        simp [extrasStep, hs, rowGet?_dictSet_ne _ hne]

theorem insertDesc_perm (p : String × Nat) (l : List (String × Nat)) :
    (insertDesc p l).Perm (p :: l) := by
  induction l with
  | nil => exact List.Perm.refl _
  | cons q rest ih =>
    unfold insertDesc
    split
    · exact List.Perm.refl _
    · exact (List.Perm.cons q ih).trans (List.Perm.swap p q rest)

theorem sortDesc_perm (l : List (String × Nat)) : (sortDesc l).Perm l := by
  induction l with
  | nil => exact List.Perm.refl _
  | cons a rest ih =>
    exact (insertDesc_perm a (sortDesc rest)).trans (List.Perm.cons a ih)

theorem insertDesc_pairwise (p : String × Nat) {l : List (String × Nat)}
    (h : l.Pairwise (fun a b => b.2 ≤ a.2)) :
    (insertDesc p l).Pairwise (fun a b => b.2 ≤ a.2) := by
  induction l with
  | nil => simp [insertDesc]
  | cons q rest ih =>
    rw [List.pairwise_cons] at h
    unfold insertDesc
    split
    · rename_i hc
      refine List.Pairwise.cons ?_ (List.pairwise_cons.mpr h)
      intro b hb
      rcases List.mem_cons.mp hb with hb | hb
      · subst hb; exact hc
      · exact le_trans (h.1 b hb) hc
    · rename_i hc
      refine List.Pairwise.cons ?_ (ih h.2)
      intro b hb
      have : b ∈ p :: rest := (insertDesc_perm p rest).mem_iff.mp hb
      rcases List.mem_cons.mp this with hb' | hb'
      · subst hb'; omega
      · exact h.1 b hb'

theorem sortDesc_pairwise (l : List (String × Nat)) :
    (sortDesc l).Pairwise (fun a b => b.2 ≤ a.2) := by
  induction l with
  | nil => simp [sortDesc]
  | cons a rest ih => exact insertDesc_pairwise a ih

theorem insertDesc_filter (p : String × Nat) (l : List (String × Nat)) (c : Nat) :
    (insertDesc p l).filter (fun q => q.2 == c) =
      if p.2 == c then p :: l.filter (fun q => q.2 == c)
      else l.filter (fun q => q.2 == c) := by
  induction l with
  | nil =>
    by_cases hp : (p.2 == c) <;> simp [insertDesc, List.filter, hp]
  | cons q rest ih =>
    unfold insertDesc
    split
    · rename_i hc
      simp [List.filter_cons]
    · rename_i hc
      rw [List.filter_cons, List.filter_cons, ih]
      by_cases hq : (q.2 == c) <;> by_cases hp : (p.2 == c)
      · exfalso
        have h1 : q.2 = c := by simpa using hq
        have h2 : p.2 = c := by simpa using hp
        omega
      · simp [hq, hp]
      · simp [hq, hp]
      · simp [hq, hp]

theorem sortDesc_filter (l : List (String × Nat)) (c : Nat) :
    (sortDesc l).filter (fun q => q.2 == c) = l.filter (fun q => q.2 == c) := by
  induction l with
  | nil => rfl
  | cons a rest ih =>
    show (insertDesc a (sortDesc rest)).filter _ = _
    rw [insertDesc_filter, List.filter_cons, ih]

theorem updateSafety_eq (s : SafetyStats) (v : Record) :
    updateSafety s v =
      ⟨s.accidents_2017 + seqContrib v 0, s.killed_2017 + seqContrib v 1,
       s.injured_2017 + seqContrib v 2, s.accidents_2018 + seqContrib v 3,
       s.killed_2018 + seqContrib v 4, s.injured_2018 + seqContrib v 5⟩ := by
  have r0 : List.range 1 = [0] := rfl
  have r1 : List.range 2 = [0, 1] := rfl
  have r2 : List.range 3 = [0, 1, 2] := rfl
  have r3 : List.range 4 = [0, 1, 2, 3] := rfl
  have r4 : List.range 5 = [0, 1, 2, 3, 4] := rfl
  have r5 : List.range 6 = [0, 1, 2, 3, 4, 5] := rfl
  unfold updateSafety
  cases h0 : safetyVal? v "Number of Accidents - 2017" with
  | none => simp [seqContrib, safetyKeyAt, r0, r1, r2, r3, r4, r5, h0]
  | some a0 =>
    cases h1 : safetyVal? v "Persons Killed - 2017" with
    | none => simp [seqContrib, safetyKeyAt, r0, r1, r2, r3, r4, r5, h0, h1]
    | some a1 =>
      cases h2 : safetyVal? v "Persons Injured - 2017" with
      | none => simp [seqContrib, safetyKeyAt, r0, r1, r2, r3, r4, r5, h0, h1, h2]
      | some a2 =>
        cases h3 : safetyVal? v "Number of Accidents - 2018" with
        | none => simp [seqContrib, safetyKeyAt, r0, r1, r2, r3, r4, r5, h0, h1, h2, h3]
        | some a3 =>
          cases h4 : safetyVal? v "Persons Killed - 2018" with
          | none =>
            simp [seqContrib, safetyKeyAt, r0, r1, r2, r3, r4, r5, h0, h1, h2, h3, h4]
          | some a4 =>
            cases h5 : safetyVal? v "Persons Injured - 2018" with
            | none =>
              simp [seqContrib, safetyKeyAt, r0, r1, r2, r3, r4, r5, h0, h1, h2, h3, h4, h5]
            | some a5 =>
              simp [seqContrib, safetyKeyAt, r0, r1, r2, r3, r4, r5, h0, h1, h2, h3, h4, h5]

theorem fold_safety (data : List Record) : ∀ st : AggState,
    (List.foldl stepRecord st data).safety = List.foldl updateSafety st.safety data := by
  induction data with
  | nil => intro st; rfl
  | cons v rest ih =>
    intro st
    rw [List.foldl_cons, List.foldl_cons, ih]
    rfl

theorem fold_updateSafety (data : List Record) : ∀ s : SafetyStats,
    List.foldl updateSafety s data =
      ⟨s.accidents_2017 + (data.map (fun v => seqContrib v 0)).sum,
       s.killed_2017 + (data.map (fun v => seqContrib v 1)).sum,
       s.injured_2017 + (data.map (fun v => seqContrib v 2)).sum,
       s.accidents_2018 + (data.map (fun v => seqContrib v 3)).sum,
       s.killed_2018 + (data.map (fun v => seqContrib v 4)).sum,
       s.injured_2018 + (data.map (fun v => seqContrib v 5)).sum⟩ := by
  induction data with
  | nil => intro s; simp
  | cons v rest ih =>
    intro s
    rw [List.foldl_cons, updateSafety_eq, ih]
    simp only [List.map_cons, List.sum_cons, SafetyStats.mk.injEq]
    refine ⟨?_, ?_, ?_, ?_, ?_, ?_⟩ <;> ring

theorem lookupCoord_append_ne {k k0 : String} (m : List (String × (Rat × Rat)))
    (c : Rat × Rat) (h : k ≠ k0) :
    lookupCoord (m ++ [(k, c)]) k0 = lookupCoord m k0 := by
  induction m with
  | nil => simp [lookupCoord, h]
  | cons p rest ih =>
    obtain ⟨k', c'⟩ := p
    by_cases h0 : k' = k0 <;> simp [lookupCoord, h0, ih]

theorem lookupCoord_append_self {k : String} (m : List (String × (Rat × Rat)))
    (c : Rat × Rat) (h : lookupCoord m k = none) :
    lookupCoord (m ++ [(k, c)]) k = some c := by
  induction m with
  | nil => simp [lookupCoord]
  | cons p rest ih =>
    obtain ⟨k', c'⟩ := p
    by_cases h0 : k' = k
    · simp [lookupCoord, h0] at h
    · simp only [lookupCoord, if_neg h0] at h
      simp [lookupCoord, h0, ih h]

theorem coords_fold (data : List Record) : ∀ (st : AggState) (loc : String),
    lookupCoord (List.foldl stepRecord st data).location_coords loc =
      (match lookupCoord st.location_coords loc with
       | some c => some c
       | none => (data.filter (fun v => locLabel v == loc)).findSome? tryCoords) := by
  induction data with
  | nil =>
    intro st loc
    cases h : lookupCoord st.location_coords loc <;> simp [h]
  | cons v rest ih =>
    intro st loc
    rw [List.foldl_cons, ih]
    have hcu : (stepRecord st v).location_coords = coordUpdate st.location_coords v := rfl
    rw [hcu]
    by_cases hv : locLabel v = loc
    · subst hv
      unfold coordUpdate
      rw [if_pos (locLabel_ne v)]
      cases h : lookupCoord st.location_coords (locLabel v) with
      | some c0 => simp [h]
      | none =>
        cases ht : tryCoords v with
        | some c =>
          simp [lookupCoord_append_self _ _ h, h, List.filter_cons, ht]
        | none =>
          simp [h, List.filter_cons, ht]
    · have hf : (List.filter (fun w => locLabel w == loc) (v :: rest)) =
          List.filter (fun w => locLabel w == loc) rest := by
        simp [List.filter_cons, hv]
      rw [hf]
      have hlk : lookupCoord (coordUpdate st.location_coords v) loc =
          lookupCoord st.location_coords loc := by
        unfold coordUpdate
        split
        · split
          · rfl
          · split
            · exact lookupCoord_append_ne _ _ hv
            · rfl
        · rfl
      rw [hlk]

theorem mkRecommendations_eq (total os sj : Nat) (zones : List Zone) :
    mkRecommendations total os sj zones =
      (if 0 < total ∧ (15 : Rat) / 100 < (os : Rat) / (total : Rat)
        then [speedMsg] else []) ++
      (if 0 < total ∧ (15 : Rat) / 100 < (sj : Rat) / (total : Rat)
        then [signalMsg] else []) ++
      (match zones with
        | [] => []
        | z :: _ => [priorityMsg z.location]) := by
  unfold mkRecommendations
  by_cases h : 0 < total
  · by_cases h1 : (15 : Rat) / 100 < (os : Rat) / (total : Rat) <;>
      by_cases h2 : (15 : Rat) / 100 < (sj : Rat) / (total : Rat) <;>
      simp [h, h1, h2] <;> cases zones <;> simp
  · simp only [if_neg h]
    have : ¬(0 < total ∧ (15 : Rat) / 100 < (os : Rat) / (total : Rat)) :=
      fun hc => h hc.1
    have h2 : ¬(0 < total ∧ (15 : Rat) / 100 < (sj : Rat) / (total : Rat)) :=
      fun hc => h hc.1
    simp [this, h2]

theorem analytics_zones_empty : (analytics []).high_risk_zones = [] := rfl

theorem analytics_total_pos_of_zones (data : List Record)
    (h : (analytics data).high_risk_zones ≠ []) :
    0 < (analytics data).total_violations := by
  by_contra hc
  have htot : data.length = 0 := by
    simpa [analytics] using hc
  have : data = [] := List.length_eq_zero.mp htot
  subst this
  exact h analytics_zones_empty

/-! ## Claim theorems -/

/-- C1: for every record list given to the aggregator, the value sums of
by_type, by_location and by_date all equal total_violations — every
processed record increments exactly one bucket in each of the three
counter dicts. -/
theorem C1_bucket_sums (data : List Record) :
    sumCounts (analytics data).by_type = (analytics data).total_violations ∧
    sumCounts (analytics data).by_location = (analytics data).total_violations ∧
    sumCounts (analytics data).by_date = (analytics data).total_violations := by
  have h := fold_sums data initState
  have hty : (analytics data).by_type = (List.foldl stepRecord initState data).by_type := rfl
  have hlo : (analytics data).by_location = (List.foldl stepRecord initState data).by_location := rfl
  have hda : (analytics data).by_date = (List.foldl stepRecord initState data).by_date := rfl
  have htot : (analytics data).total_violations = data.length := rfl
  rw [hty, hlo, hda, htot, h.1, h.2.1, h.2.2]
  simp [initState, sumCounts]

/-- C2: pick_field returns the value of the first synonym that is present
with a non-null value — skipping absent and present-but-null keys alike,
with the result independent of any later synonyms — and returns the null
sentinel when no synonym matches. -/
theorem C2_pick_field_first_match :
    (∀ (row : RawRow) (pre post : List String) (k : String) (v : Value),
      (∀ k' ∈ pre, rowGet? row k' = none ∨ rowGet? row k' = some none) →
      rowGet? row k = some (some v) →
      pick_field row (pre ++ k :: post) = some v) ∧
    (∀ (row : RawRow) (variants : List String),
      (∀ k ∈ variants, rowGet? row k = none ∨ rowGet? row k = some none) →
      pick_field row variants = none) :=
  ⟨fun _ pre post _ _ hpre hk => pick_field_append_found pre post hpre hk,
   fun _ variants h => pick_field_all_skip variants h⟩

/-- C2 witness: a row where the first synonym is present-but-null and the
second and third are present; the second wins whatever follows it. -/
theorem C2_witness :
    pick_field [("a", none), ("b", some (.str "B")), ("c", some (.str "C"))]
      (["a"] ++ "b" :: ["c"]) = some (.str "B") :=
  C2_pick_field_first_match.1
    [("a", none), ("b", some (.str "B")), ("c", some (.str "C"))]
    ["a"] ["c"] "b" (.str "B") (by decide) (by decide)

/-- C3 counterexample: on a raw row exposing no synonym at all (the empty
row), the normalized record keeps the latitude key present with a null
value; it is not absent as the claim states. -/
theorem C3_counterexample :
    rowGet? (normalize ([] : RawRow)) "latitude" ≠ none ∧
    rowGet? (normalize ([] : RawRow)) "latitude" = some none := by
  constructor
  · decide
  · decide

/-- C3 amended: for a raw row (with dict-like distinct keys) exposing none
of the synonyms of a canonical field, the four string fields are the present
empty string, and latitude/longitude are present with the null value
(rather than absent). -/
theorem C3_amended_defaults (r : RawRow)
    (hkeys : (r.map Prod.fst).Nodup)
    (hv : pick_field r vehicleSyns = none)
    (ht : pick_field r typeSyns = none)
    (hl : pick_field r locationSyns = none)
    (hd : pick_field r dateSyns = none)
    (hlat : pick_field r latSyns = none)
    (hlon : pick_field r lonSyns = none) :
    rowGet? (normalize r) "vehicle" = some (some (.str "")) ∧
    rowGet? (normalize r) "type" = some (some (.str "")) ∧
    rowGet? (normalize r) "location" = some (some (.str "")) ∧
    rowGet? (normalize r) "date" = some (some (.str "")) ∧
    rowGet? (normalize r) "latitude" = some none ∧
    rowGet? (normalize r) "longitude" = some none := by
  have hskip : ∀ k0 : String, k0 ∈ skipKeys →
      ∀ kv ∈ r, kv.2 ≠ none → kv.1 ∉ skipKeys → kv.1 ≠ k0 := by
    intro k0 hk0 kv _ _ hnotin heq
    exact hnotin (heq ▸ hk0)
  have hdate : ∀ kv ∈ r, kv.2 ≠ none → kv.1 ∉ skipKeys → kv.1 ≠ "date" := by
    intro kv hm hne _ heq
    cases hw : kv.2 with
    | none => exact hne hw
    | some val =>
      have hget : rowGet? r "date" = some (some val) := by
        have := rowGet?_mem_nodup hkeys hm
        rw [heq, hw] at this
        exact this
      have : pick_field r dateSyns = some val :=
        pick_field_cons_found hget _
      rw [hd] at this
      cases this
  unfold normalize
  rw [hv, ht, hl, hd, hlat, hlon]
  refine ⟨?_, ?_, ?_, ?_, ?_, ?_⟩
  · rw [fold_extras_preserve _ _ _ (hskip "vehicle" (by decide))]; decide
  · rw [fold_extras_preserve _ _ _ (hskip "type" (by decide))]; decide
  · rw [fold_extras_preserve _ _ _ (hskip "location" (by decide))]; decide
  · rw [fold_extras_preserve _ _ _ hdate]; decide
  · rw [fold_extras_preserve _ _ _ (hskip "latitude" (by decide))]; decide
  · rw [fold_extras_preserve _ _ _ (hskip "longitude" (by decide))]; decide

/-- C3 amended witness: the empty raw row. -/
theorem C3_amended_witness :
    rowGet? (normalize ([] : RawRow)) "vehicle" = some (some (.str "")) ∧
    rowGet? (normalize ([] : RawRow)) "type" = some (some (.str "")) ∧
    rowGet? (normalize ([] : RawRow)) "location" = some (some (.str "")) ∧
    rowGet? (normalize ([] : RawRow)) "date" = some (some (.str "")) ∧
    rowGet? (normalize ([] : RawRow)) "latitude" = some none ∧
    rowGet? (normalize ([] : RawRow)) "longitude" = some none :=
  C3_amended_defaults [] (by decide) rfl rfl rfl rfl rfl rfl

/-- C4: high_risk_zones is the by_location entry list under a stable
descending-count sort — a permutation, sorted descending, with every count
class kept in original encounter order — truncated to at most 5 entries,
each annotated with exactly the coordinate pair captured for its location
(none when none was captured). -/
theorem C4_high_risk_zones (data : List Record) :
    (analytics data).high_risk_zones.length ≤ 5 ∧
    (analytics data).high_risk_zones.Pairwise (fun z w => w.count ≤ z.count) ∧
    ∃ s : List (String × Nat),
      s.Perm (analytics data).by_location ∧
      s.Pairwise (fun a b => b.2 ≤ a.2) ∧
      (∀ c : Nat, s.filter (fun q => q.2 == c) =
        (analytics data).by_location.filter (fun q => q.2 == c)) ∧
      (analytics data).high_risk_zones = (s.take 5).map
        (fun p => ⟨p.1, p.2, lookupCoord (analyticsState data).location_coords p.1⟩) := by
  have hloc : (analytics data).by_location = (analyticsState data).by_location := rfl
  have hz : (analytics data).high_risk_zones =
      mkZones (analyticsState data).by_location (analyticsState data).location_coords := rfl
  refine ⟨?_, ?_, sortDesc (analyticsState data).by_location, ?_, ?_, ?_, ?_⟩
  · rw [hz]
    simp only [mkZones, List.length_map, List.length_take]
    omega
  · rw [hz]
    unfold mkZones
    rw [List.pairwise_map]
    exact (sortDesc_pairwise _).sublist (List.take_sublist _ _)
  · rw [hloc]; exact sortDesc_perm _
  · exact sortDesc_pairwise _
  · intro c; rw [hloc]; exact sortDesc_filter _ c
  · rw [hz]; rfl

/-- C5: the recommendation list is non-empty only when there are
violations, and consists of exactly the speeding advisory (iff the
over-speed share strictly exceeds 15/100 with a positive total), then the
signal advisory (same threshold on the signal share), then the
priority-action advisory naming the top high-risk zone (iff any zone
exists) — in that order and nothing else. -/
theorem C5_recommendations (data : List Record) :
    ((analytics data).recommendations ≠ [] → 0 < (analytics data).total_violations) ∧
    (analytics data).recommendations =
      (if 0 < (analytics data).total_violations ∧
          (15 : Rat) / 100 <
            ((analytics data).over_speed : Rat) / ((analytics data).total_violations : Rat)
        then [speedMsg] else []) ++
      (if 0 < (analytics data).total_violations ∧
          (15 : Rat) / 100 <
            ((analytics data).signal_jump : Rat) / ((analytics data).total_violations : Rat)
        then [signalMsg] else []) ++
      (match (analytics data).high_risk_zones with
        | [] => []
        | z :: _ => [priorityMsg z.location]) := by
  constructor
  · intro hne
    by_contra hc
    have htot : data.length = 0 := by simpa [analytics] using hc
    have hdata : data = [] := List.length_eq_zero.mp htot
    subst hdata
    exact hne rfl
  · have hrec : (analytics data).recommendations =
        mkRecommendations (analytics data).total_violations (analytics data).over_speed
          (analytics data).signal_jump (analytics data).high_risk_zones := rfl
    rw [hrec, mkRecommendations_eq]

/-- C6 counterexample: in a record whose second safety field is the
non-numeric string abc while its fourth safety field is the number 5, the
failed coercion aborts the rest of the shared try block, so
accidents_2018 stays 0 even though the independent per-field sum the claim
asserts is 5. -/
theorem C6_counterexample :
    (analytics [c6Row]).safety_stats.stats.accidents_2018 = 0 ∧
    claimedFieldSum [c6Row] "Number of Accidents - 2018" = 5 ∧
    (analytics [c6Row]).safety_stats.stats.accidents_2018 ≠
      claimedFieldSum [c6Row] "Number of Accidents - 2018" := by
  have hk1 : safetyVal? c6Row "Persons Killed - 2017" = none := by decide
  have hk3 : safetyVal? c6Row "Number of Accidents - 2018" = some 5 := by decide
  have h1 : (analytics [c6Row]).safety_stats.stats.accidents_2018 = 0 := by
    have hst : (analytics [c6Row]).safety_stats.stats =
        updateSafety initSafety c6Row := rfl
    have hc3 : seqContrib c6Row 3 = 0 := by
      have r3 : List.range 4 = [0, 1, 2, 3] := rfl
      simp [seqContrib, safetyKeyAt, r3, hk1]
    rw [hst, updateSafety_eq]
    simp [hc3, initSafety]
  have h2 : claimedFieldSum [c6Row] "Number of Accidents - 2018" = 5 := by
    simp [claimedFieldSum, hk3]
  refine ⟨h1, h2, ?_⟩
  rw [h1, h2]
  norm_num

/-- C6 amended: each of the six safety counters equals the sum over all
records of the sequential contribution of that record — the coerced
value when it and every earlier safety field of the same record coerce,
and zero from the first failing coercion of the record onwards (a missing
field coerces to zero and does not abort); no error reaches the caller. -/
theorem C6_amended_safety_sums (data : List Record) :
    (analytics data).safety_stats.stats.accidents_2017 =
      (data.map (fun v => seqContrib v 0)).sum ∧
    (analytics data).safety_stats.stats.killed_2017 =
      (data.map (fun v => seqContrib v 1)).sum ∧
    (analytics data).safety_stats.stats.injured_2017 =
      (data.map (fun v => seqContrib v 2)).sum ∧
    (analytics data).safety_stats.stats.accidents_2018 =
      (data.map (fun v => seqContrib v 3)).sum ∧
    (analytics data).safety_stats.stats.killed_2018 =
      (data.map (fun v => seqContrib v 4)).sum ∧
    (analytics data).safety_stats.stats.injured_2018 =
      (data.map (fun v => seqContrib v 5)).sum := by
  have hs : (analytics data).safety_stats.stats =
      (List.foldl stepRecord initState data).safety := rfl
  rw [hs, fold_safety, fold_updateSafety]
  simp [initState, initSafety]

/-- C7 counterexample: with two records of location X, the first carrying
no coordinates and the second carrying the numeric pair (1, 2), the
aggregator captures (1, 2) from the second record — the claim says
coordinates of records after the first occurrence are ignored, which would
leave X without a pair. -/
theorem C7_counterexample :
    tryCoords c7RowA = none ∧
    locLabel c7RowA = "X" ∧ locLabel c7RowB = "X" ∧
    lookupCoord (analyticsState [c7RowA, c7RowB]).location_coords "X" =
      some (1, 2) := by
  refine ⟨by decide, by decide, by decide, by decide⟩

/-- C7 amended: the coordinate pair associated with a location is the one
carried by the first record (in record order) of that location whose
latitude and longitude are both present and coerce to numbers; once a pair
is captured it is never replaced, records whose pair fails coercion are
skipped silently, and no error is raised. -/
theorem C7_amended_first_coercible (data : List Record) (loc : String) :
    lookupCoord (analyticsState data).location_coords loc =
      (data.filter (fun v => locLabel v == loc)).findSome? tryCoords := by
  have h := coords_fold data initState loc
  simpa [analyticsState, initState, lookupCoord] using h

/-- C8: percent_change is total on the rationals — (new-old)/old*100 for a
non-zero base, 0 for a zero base, any new value included — and it is what
produces the three pct fields from the 2018/2017 counter pairs. -/
theorem C8_percent_change :
    (∀ new old : Rat, old ≠ 0 → calc_pct new old = (new - old) / old * 100) ∧
    (∀ x : Rat, calc_pct x 0 = 0) ∧
    ∀ data : List Record,
      (analytics data).safety_stats.pct_accidents =
        calc_pct (analytics data).safety_stats.stats.accidents_2018
          (analytics data).safety_stats.stats.accidents_2017 ∧
      (analytics data).safety_stats.pct_killed =
        calc_pct (analytics data).safety_stats.stats.killed_2018
          (analytics data).safety_stats.stats.killed_2017 ∧
      (analytics data).safety_stats.pct_injured =
        calc_pct (analytics data).safety_stats.stats.injured_2018
          (analytics data).safety_stats.stats.injured_2017 :=
  ⟨fun _ old h => by simp [calc_pct, h],
   fun x => by simp [calc_pct],
   fun _ => ⟨rfl, rfl, rfl⟩⟩

/-- C8 witness: a non-zero base and the zero base, both at concrete
inputs, including the x = 0 instance of the zero-base branch. -/
theorem C8_witness :
    calc_pct 3 2 = (3 - 2) / 2 * 100 ∧ calc_pct 7 0 = 0 ∧ calc_pct 0 0 = 0 :=
  ⟨C8_percent_change.1 3 2 (by norm_num), C8_percent_change.2.1 7,
   C8_percent_change.2.1 0⟩

/-- C9: a load request whose source path does not exist fails and leaves
the dataset exactly as it was, in replace mode as in append mode — the
existence check precedes the clear. -/
theorem C9_source_not_found (fs : FS) (path : String) (clear_existing : Bool)
    (violations : List Record) (h : fs path = none) :
    load_dataset fs path clear_existing violations = (false, violations) := by
  simp [load_dataset, h]

/-- C9 witness: a missing default source in replace mode over a non-empty
store. -/
theorem C9_witness :
    load_dataset emptyFS "dataset.xlsx" true [[("location", some (.str "Y"))]] =
      (false, [[("location", some (.str "Y"))]]) :=
  C9_source_not_found emptyFS "dataset.xlsx" true
    [[("location", some (.str "Y"))]] rfl

/-- C10 (implicit): when the store is empty at the start of a read, both
read handlers first reload the default sources in replace mode before
answering, so reads are not side-effect-free: a clear followed by a read
repopulates the shared store from an existing dataset.xlsx and returns a
non-empty snapshot; a read over a non-empty store is pure. -/
theorem C10_read_repopulates (fs : FS) (rows : List RawRow) (store : List Record)
    (hx : fs "dataset.xlsx" = some (some rows)) :
    (store ≠ [] → get_violations fs store = (store, store)) ∧
    (get_violations fs (clear_dataset store)).1 =
      rows.map (fun r => normalize (stripKeys r)) ∧
    (get_violations fs (clear_dataset store)).2 =
      rows.map (fun r => normalize (stripKeys r)) ∧
    (rows ≠ [] → (get_violations fs (clear_dataset store)).1 ≠ []) ∧
    (analytics_handler fs (clear_dataset store)).2 =
      rows.map (fun r => normalize (stripKeys r)) := by
  have hload : load_dataset fs "dataset.xlsx" true [] =
      (true, rows.map fun r => normalize (stripKeys r)) := by
    simp [load_dataset, hx]
  have hens : ensureData fs [] = rows.map (fun r => normalize (stripKeys r)) := by
    simp [ensureData, hload]
  refine ⟨?_, ?_, ?_, ?_, ?_⟩
  · intro hs
    simp [get_violations, ensureData, hs]
  · show ensureData fs [] = _
    exact hens
  · show ensureData fs [] = _
    exact hens
  · intro hr
    show ensureData fs [] ≠ []
    rw [hens]
    simpa using hr
  · show ensureData fs [] = _
    exact hens

/-- C10 witness: a present one-row dataset.xlsx; clear then read yields a
non-empty snapshot. -/
theorem C10_witness :
    (get_violations fsDefault (clear_dataset [])).1 =
      [[("location", some (.str "Z"))]].map (fun r => normalize (stripKeys r)) ∧
    (get_violations fsDefault (clear_dataset [])).1 ≠ [] := by
  have h := C10_read_repopulates fsDefault [[("location", some (.str "Z"))]] []
    (by decide)
  exact ⟨h.2.1, h.2.2.2.1 (by decide)⟩

end SmartTraffic
